import Mathlib

/-!
Shallow embedding of `src/pybel/struct/filters/node_predicates.py`:
the predicate adapter (`node_predicate`), the base node-property
predicates, the edge-qualifier scanner (`_node_has_modifier` and its
derived predicates), and the exclusion-set filter builder
(`node_exclusion_filter_builder`).

The graph collaborator (`BELGraph`), the vocabulary constants and the
canonicalization function `node_to_tuple` live outside the excerpt and
are modelled from the spec (each such definition says so in its doc
comment).  Python dictionaries with optional keys become structures
with `Option` fields; Python exceptions become an `Except` error type.
-/

/-- Modelled from the spec: vocabulary token for the abundance function. -/
def ABUNDANCE : String := "Abundance"

/-- Modelled from the spec: vocabulary token for the gene function. -/
def GENE : String := "Gene"

/-- Modelled from the spec: vocabulary token for the protein function. -/
def PROTEIN : String := "Protein"

/-- Modelled from the spec: vocabulary token for the pathology function. -/
def PATHOLOGY : String := "Pathology"

/-- Modelled from the spec: variant-kind token for protein modification. -/
def PMOD : String := "pmod"

/-- Modelled from the spec: variant-kind token for gene modification. -/
def GMOD : String := "gmod"

/-- Modelled from the spec: variant-kind token for HGVS variants. -/
def HGVS : String := "hgvs"

/-- Modelled from the spec: variant-kind token for fragments. -/
def FRAGMENT : String := "frag"

/-- Modelled from the spec: modifier token for molecular activity. -/
def ACTIVITY : String := "Activity"

/-- Modelled from the spec: modifier token for degradation. -/
def DEGRADATION : String := "Degradation"

/-- Modelled from the spec: modifier token for translocation. -/
def TRANSLOCATION : String := "Translocation"

/-- Modelled from the spec: a causal relation token (increases-style). -/
def INCREASES : String := "increases"

/-- Modelled from the spec: a causal relation token (decreases-style). -/
def DECREASES : String := "decreases"

/-- Modelled from the spec: a non-causal (correlative) relation token. -/
def ASSOCIATION : String := "association"

/-- Modelled from the spec: `CausalRelations`, the fixed set of relation
tokens considered causal, supplied by the graph's vocabulary and treated
as an opaque set for membership testing. -/
def CAUSAL_RELATIONS : List String :=
  [INCREASES, DECREASES, "directlyIncreases", "directlyDecreases"]

/-- A variant record on a node; the spec invariant says it always
carries a `kind` field, which is the only field the predicates read. -/
structure VariantDict where
  kind : String
deriving DecidableEq, Repr

/-- A PyBEL node data dictionary: a mapping minimally containing a
`function` key and optionally a `variants` key holding an ordered
sequence of variant records.  Key absence is `none`. -/
structure NodeData where
  function : String
  variants : Option (List VariantDict) := none
deriving DecidableEq, Repr

/-- A subject/object qualifier sub-record on an edge.  The `modifier`
key may be absent (`none`); `effect` models the remaining payload
(e.g. translocation from/to locations). -/
structure QualifierRecord where
  modifier : Option String := none
  effect : Option (String × String) := none
deriving DecidableEq, Repr

/-- An edge data dictionary: a relation token plus optional `subject`
and `object` qualifier sub-records. -/
structure EdgeData where
  relation : String
  subject : Option QualifierRecord := none
  object : Option QualifierRecord := none
deriving DecidableEq, Repr

/-- Modelled from the spec: `NodeRef`, an opaque hashable canonical
identifier for a node, derived deterministically from `NodeData`. -/
structure NodeRef where
  parts : List String
deriving DecidableEq, Repr

/-- Modelled from the spec: the `Graph` collaborator, exposing for any
`NodeRef` its node data and the sequences of incoming and outgoing
edges; each edge is a `(source, target, EdgeData)` triple. -/
structure BELGraph where
  nodes : List (NodeRef × NodeData)
  edges : List (NodeRef × NodeRef × EdgeData)
deriving DecidableEq, Repr

/-- Membership of a reference among the graph's nodes. -/
def BELGraph.hasNode (g : BELGraph) (n : NodeRef) : Bool :=
  g.nodes.any (fun p => p.1 == n)

/-- Python errors surfaced by this core, named after the spec's error
taxonomy: `invalidArgument` is the adapter's `ValueError`,
`nodeNotFound` is the graph collaborator's `KeyError`,
`indexOutOfRange` is Python's `IndexError` on `args[1]`, and
`typeError` is Python's `TypeError` on an arity mismatch. -/
inductive PyError where
  | invalidArgument
  | nodeNotFound
  | indexOutOfRange
  | typeError
deriving DecidableEq, Repr

/-- A positional argument to a predicate-adapted function: a graph, a
node data dictionary, or a node tuple (anything else the adapter would
reject identically, so one representative constructor suffices). -/
inductive Arg where
  | graph : BELGraph → Arg
  | data : NodeData → Arg
  | ref : NodeRef → Arg
deriving DecidableEq

/-- Modelled from the spec: `lookup(NodeRef) -> NodeData`, failing with
NodeNotFound if the reference is absent.  This is the collaborator
behind `x.node[args[1]]`; a subscript that is not a node reference also
fails (Python would raise there as well). -/
def BELGraph.node_get (g : BELGraph) (a : Arg) : Except PyError NodeData :=
  match a with
  | .ref r =>
    match g.nodes.lookup r with
    | some d => .ok d
    | none => .error .nodeNotFound
  | _ => .error .nodeNotFound

/-- Modelled from the spec: `inEdges(NodeRef)`, the ordered sequence of
incoming edges of a node, failing with NodeNotFound if the reference is
not present in the graph. -/
def BELGraph.in_edges_iter (g : BELGraph) (n : NodeRef) :
    Except PyError (List (NodeRef × NodeRef × EdgeData)) :=
  if g.hasNode n then .ok (g.edges.filter (fun e => e.2.1 == n))
  else .error .nodeNotFound

/-- Modelled from the spec: `outEdges(NodeRef)`, the ordered sequence of
outgoing edges of a node, failing with NodeNotFound if the reference is
not present in the graph. -/
def BELGraph.out_edges_iter (g : BELGraph) (n : NodeRef) :
    Except PyError (List (NodeRef × NodeRef × EdgeData)) :=
  if g.hasNode n then .ok (g.edges.filter (fun e => e.1 == n))
  else .error .nodeNotFound

/-- Modelled from the spec: `canonicalize(NodeData) -> NodeRef`
(`node_to_tuple`), total and deterministic: structurally equal node
data records yield equal references. -/
def node_to_tuple (data : NodeData) : NodeRef :=
  ⟨data.function :: (match data.variants with
    | none => []
    | some vs => vs.map (fun v => v.kind))⟩

/-- The predicate adapter `node_predicate`: wraps a unary node-data
function so it also accepts a `(BELGraph, node tuple)` pair.  Mirrors
the Python `wrapped(*args)`: empty args raise `ValueError`; a first
argument that is a `BELGraph` resolves `x.node[args[1]]` (so a missing
`args[1]` is an `IndexError` and an absent node a `KeyError`) and calls
`fn` on the data; a first argument that is a dict calls `fn(*args)`;
anything else raises `ValueError`.  The wrapped functions here are all
unary, so surplus arguments are a `TypeError` at the call. -/
def node_predicate (fn : NodeData → Bool) : List Arg → Except PyError Bool :=
  fun args =>
    match args with
    | [] => .error .invalidArgument
    | x :: rest =>
      match x with
      | .graph g =>
        match rest with
        | [] => .error .indexOutOfRange
        | a :: rest2 =>
          match g.node_get a with
          | .error e => .error e
          | .ok d => if rest2.isEmpty then .ok (fn d) else .error .typeError
      | .data d => if rest.isEmpty then .ok (fn d) else .error .typeError
      | .ref _ => .error .invalidArgument

/-- `keep_node_permissive`: the default node filter, always true. -/
def keep_node_permissive (_graph : BELGraph) (_node : NodeRef) : Bool :=
  true

/-- Body of `is_abundance` (the unary node-data function under the
`@node_predicate` decorator). -/
def is_abundance (data : NodeData) : Bool :=
  data.function == ABUNDANCE

/-- Body of `is_gene`. -/
def is_gene (data : NodeData) : Bool :=
  data.function == GENE

/-- Body of `is_protein`. -/
def is_protein (data : NodeData) : Bool :=
  data.function == PROTEIN

/-- Body of `is_pathology`. -/
def is_pathology (data : NodeData) : Bool :=
  data.function == PATHOLOGY

/-- Body of `not_pathology`. -/
def not_pathology (data : NodeData) : Bool :=
  data.function != PATHOLOGY

/-- Body of `has_variant`: `VARIANTS in data`. -/
def has_variant (data : NodeData) : Bool :=
  data.variants.isSome

/-- `_node_has_variant`: `VARIANTS in data and any(variant_dict[KIND] ==
variant for variant_dict in data[VARIANTS])`. -/
def _node_has_variant (data : NodeData) (variant : String) : Bool :=
  data.variants.isSome &&
    (match data.variants with
     | some vs => vs.any (fun variant_dict => variant_dict.kind == variant)
     | none => false)

/-- Body of `has_protein_modification`. -/
def has_protein_modification (data : NodeData) : Bool :=
  _node_has_variant data PMOD

/-- Body of `has_gene_modification`. -/
def has_gene_modification (data : NodeData) : Bool :=
  _node_has_variant data GMOD

/-- Body of `has_hgvs`. -/
def has_hgvs (data : NodeData) : Bool :=
  _node_has_variant data HGVS

/-- Body of `has_fragment`. -/
def has_fragment (data : NodeData) : Bool :=
  _node_has_variant data FRAGMENT

/-- `OBJECT in d and MODIFIER in d[OBJECT] and d[OBJECT][MODIFIER] ==
modifier`, the in-edge test of `_node_has_modifier`. -/
def edgeObjectMatches (d : EdgeData) (modifier : String) : Bool :=
  match d.object with
  | some q =>
    match q.modifier with
    | some m => m == modifier
    | none => false
  | none => false

/-- `SUBJECT in d and MODIFIER in d[SUBJECT] and d[SUBJECT][MODIFIER] ==
modifier`, the out-edge test of `_node_has_modifier`. -/
def edgeSubjectMatches (d : EdgeData) (modifier : String) : Bool :=
  match d.subject with
  | some q =>
    match q.modifier with
    | some m => m == modifier
    | none => false
  | none => false

/-- `_node_has_modifier`: loop over the in-edges returning true on the
first object-qualifier match, then over the out-edges returning true on
the first subject-qualifier match, else false.  `List.any` is the
short-circuiting scan of each loop. -/
def _node_has_modifier (graph : BELGraph) (node : NodeRef) (modifier : String) :
    Except PyError Bool :=
  match graph.in_edges_iter node with
  | .error e => .error e
  | .ok inEdges =>
    if inEdges.any (fun e => edgeObjectMatches e.2.2 modifier) then .ok true
    else
      match graph.out_edges_iter node with
      | .error e => .error e
      | .ok outEdges =>
        if outEdges.any (fun e => edgeSubjectMatches e.2.2 modifier) then .ok true
        else .ok false

/-- `has_activity`. -/
def has_activity (graph : BELGraph) (node : NodeRef) : Except PyError Bool :=
  _node_has_modifier graph node ACTIVITY

/-- `is_degraded`. -/
def is_degraded (graph : BELGraph) (node : NodeRef) : Except PyError Bool :=
  _node_has_modifier graph node DEGRADATION

/-- `is_translocated`. -/
def is_translocated (graph : BELGraph) (node : NodeRef) : Except PyError Bool :=
  _node_has_modifier graph node TRANSLOCATION

/-- `has_causal_in_edges`: any in-edge whose relation is causal. -/
def has_causal_in_edges (graph : BELGraph) (node : NodeRef) :
    Except PyError Bool :=
  match graph.in_edges_iter node with
  | .error e => .error e
  | .ok es => .ok (es.any (fun e => CAUSAL_RELATIONS.contains e.2.2.relation))

/-- `has_causal_out_edges`: any out-edge whose relation is causal. -/
def has_causal_out_edges (graph : BELGraph) (node : NodeRef) :
    Except PyError Bool :=
  match graph.out_edges_iter node with
  | .error e => .error e
  | .ok es => .ok (es.any (fun e => CAUSAL_RELATIONS.contains e.2.2.relation))

/-- An element of the input sequence of
`node_exclusion_filter_builder`: a node data dictionary or a node
tuple. -/
inductive NodeInput where
  | data : NodeData → NodeInput
  | ref : NodeRef → NodeInput
deriving DecidableEq

/-- The builder's normalization of one input element:
`node_to_tuple(node) if isinstance(node, dict) else node`. -/
def canonicalizeInput : NodeInput → NodeRef
  | .data d => node_to_tuple d
  | .ref r => r

/-- `node_exclusion_filter_builder`: canonicalize every input to a node
tuple, collect them into a set, and return the predicate-adapted test
`node_to_tuple(data) not in nodes` (the list models the captured set;
only membership is observed). -/
def node_exclusion_filter_builder (nodes : List NodeInput) :
    List Arg → Except PyError Bool :=
  let nodeSet : List NodeRef := nodes.map canonicalizeInput
  node_predicate (fun data => !(nodeSet.contains (node_to_tuple data)))

/-! Concrete scenario graphs used by the directional and qualifier
scenarios of the test suite. -/

/-- Node data for the subject node of the scenarios. -/
def dataA : NodeData := { function := PROTEIN }

/-- Node data for the object node of the scenarios. -/
def dataB : NodeData := { function := ABUNDANCE }

/-- Node data for a third node. -/
def dataC : NodeData := { function := GENE }

/-- Canonical reference of `dataA`. -/
def refA : NodeRef := node_to_tuple dataA

/-- Canonical reference of `dataB`. -/
def refB : NodeRef := node_to_tuple dataB

/-- Canonical reference of `dataC`. -/
def refC : NodeRef := node_to_tuple dataC

/-- The directional-scenario edge A→B with subject-modifier Activity
and object-modifier Degradation, on a causal relation. -/
def scenarioEdge : EdgeData :=
  { relation := INCREASES,
    subject := some { modifier := some ACTIVITY },
    object := some { modifier := some DEGRADATION } }

/-- The directional-scenario graph: nodes A, B and the single edge
A→B of `scenarioEdge`. -/
def gScenario : BELGraph :=
  { nodes := [(refA, dataA), (refB, dataB)],
    edges := [(refA, refB, scenarioEdge)] }

/-! Shared helper lemmas about the modelled graph and the scanner. -/

theorem in_edges_iter_ok (g : BELGraph) (n : NodeRef) (h : g.hasNode n = true) :
    g.in_edges_iter n = .ok (g.edges.filter (fun e => e.2.1 == n)) := by
  simp [BELGraph.in_edges_iter, h]

theorem out_edges_iter_ok (g : BELGraph) (n : NodeRef) (h : g.hasNode n = true) :
    g.out_edges_iter n = .ok (g.edges.filter (fun e => e.1 == n)) := by
  simp [BELGraph.out_edges_iter, h]
theorem edgeObjectMatches_iff (d : EdgeData) (m : String) :
    edgeObjectMatches d m = true ↔ ∃ q, d.object = some q ∧ q.modifier = some m := by
  unfold edgeObjectMatches
  cases hq : d.object with
  | none => simp
  | some q =>
    cases hm : q.modifier with
    | none => simp [hm]
    | some s => simp [hm, beq_iff_eq]

theorem edgeSubjectMatches_iff (d : EdgeData) (m : String) :
    edgeSubjectMatches d m = true ↔ ∃ q, d.subject = some q ∧ q.modifier = some m := by
  unfold edgeSubjectMatches
  cases hq : d.subject with
  | none => simp
  | some q =>
    cases hm : q.modifier with
    | none => simp [hm]
    | some s => simp [hm, beq_iff_eq]

theorem scanner_if_or (a b : Bool) :
    (if a then Except.ok true else if b then Except.ok true else Except.ok false) =
      (Except.ok (a || b) : Except PyError Bool) := by
  cases a <;> cases b <;> rfl

theorem node_has_modifier_eq (g : BELGraph) (n : NodeRef) (m : String)
    (h : g.hasNode n = true) :
    _node_has_modifier g n m =
      .ok ((g.edges.filter (fun e => e.2.1 == n)).any
              (fun e => edgeObjectMatches e.2.2 m) ||
           (g.edges.filter (fun e => e.1 == n)).any
              (fun e => edgeSubjectMatches e.2.2 m)) := by
  unfold _node_has_modifier
  rw [in_edges_iter_ok g n h, out_edges_iter_ok g n h]
  exact scanner_if_or _ _

theorem any_in_iff (g : BELGraph) (n : NodeRef) (m : String) :
    ((g.edges.filter (fun e => e.2.1 == n)).any
        (fun e => edgeObjectMatches e.2.2 m)) = true ↔
      ∃ e ∈ g.edges, e.2.1 = n ∧ ∃ q, e.2.2.object = some q ∧ q.modifier = some m := by
  rw [List.any_eq_true]
  constructor
  · rintro ⟨e, hmem, hp⟩
    rw [List.mem_filter] at hmem
    exact ⟨e, hmem.1, beq_iff_eq.mp hmem.2, (edgeObjectMatches_iff _ _).mp hp⟩
  · rintro ⟨e, hmem, hn, hq⟩
    exact ⟨e, List.mem_filter.mpr ⟨hmem, beq_iff_eq.mpr hn⟩,
      (edgeObjectMatches_iff _ _).mpr hq⟩

theorem any_out_iff (g : BELGraph) (n : NodeRef) (m : String) :
    ((g.edges.filter (fun e => e.1 == n)).any
        (fun e => edgeSubjectMatches e.2.2 m)) = true ↔
      ∃ e ∈ g.edges, e.1 = n ∧ ∃ q, e.2.2.subject = some q ∧ q.modifier = some m := by
  rw [List.any_eq_true]
  constructor
  · rintro ⟨e, hmem, hp⟩
    rw [List.mem_filter] at hmem
    exact ⟨e, hmem.1, beq_iff_eq.mp hmem.2, (edgeSubjectMatches_iff _ _).mp hp⟩
  · rintro ⟨e, hmem, hn, hq⟩
    exact ⟨e, List.mem_filter.mpr ⟨hmem, beq_iff_eq.mpr hn⟩,
      (edgeSubjectMatches_iff _ _).mpr hq⟩

theorem node_has_modifier_iff (g : BELGraph) (n : NodeRef) (m : String)
    (h : g.hasNode n = true) :
    _node_has_modifier g n m = .ok true ↔
      ((∃ e ∈ g.edges, e.2.1 = n ∧ ∃ q, e.2.2.object = some q ∧ q.modifier = some m) ∨
       (∃ e ∈ g.edges, e.1 = n ∧ ∃ q, e.2.2.subject = some q ∧ q.modifier = some m)) := by
  rw [node_has_modifier_eq g n m h]
  constructor
  · intro he
    have hb := Except.ok.inj he
    rw [Bool.or_eq_true] at hb
    rcases hb with hb | hb
    · exact Or.inl ((any_in_iff g n m).mp hb)
    · exact Or.inr ((any_out_iff g n m).mp hb)
  · intro hb
    rcases hb with hb | hb
    · rw [(any_in_iff g n m).mpr hb, Bool.true_or]
    · rw [(any_out_iff g n m).mpr hb, Bool.or_true]

theorem except_ok_bool_false_iff (b : Bool) :
    ((Except.ok b : Except PyError Bool) = .ok false ↔
      ¬((Except.ok b : Except PyError Bool) = .ok true)) := by
  cases b <;> simp

theorem node_has_variant_iff (d : NodeData) (k : String) :
    _node_has_variant d k = true ↔
      ∃ vs, d.variants = some vs ∧ ∃ v ∈ vs, v.kind = k := by
  unfold _node_has_variant
  cases hv : d.variants with
  | none => simp
  | some vs => simp [List.any_eq_true, beq_iff_eq]

/-- C1: `_node_has_modifier g n m` is true iff some in-edge of `n`
carries an object qualifier sub-record whose modifier equals `m` or
some out-edge carries a subject qualifier sub-record whose modifier
equals `m` (object qualifiers checked only on in-edges, subject
qualifiers only on out-edges); it is false exactly when both scans
complete without a match; and on the directional scenario A→B with
subject-modifier Activity and object-modifier Degradation:
`has_activity A = true`, `is_degraded A = false`,
`has_activity B = false`, `is_degraded B = true`. -/
theorem C1_hasModifier_directional (g : BELGraph) (n : NodeRef) (m : String)
    (h : g.hasNode n = true) :
    (_node_has_modifier g n m = .ok true ↔
      ((∃ e ∈ g.edges, e.2.1 = n ∧ ∃ q, e.2.2.object = some q ∧ q.modifier = some m) ∨
       (∃ e ∈ g.edges, e.1 = n ∧ ∃ q, e.2.2.subject = some q ∧ q.modifier = some m))) ∧
    (_node_has_modifier g n m = .ok false ↔
      ¬((∃ e ∈ g.edges, e.2.1 = n ∧ ∃ q, e.2.2.object = some q ∧ q.modifier = some m) ∨
        (∃ e ∈ g.edges, e.1 = n ∧ ∃ q, e.2.2.subject = some q ∧ q.modifier = some m))) ∧
    has_activity gScenario refA = .ok true ∧
    is_degraded gScenario refA = .ok false ∧
    has_activity gScenario refB = .ok false ∧
    is_degraded gScenario refB = .ok true := by
  refine ⟨node_has_modifier_iff g n m h, ?_, rfl, rfl, rfl, rfl⟩
  rw [← node_has_modifier_iff g n m h, node_has_modifier_eq g n m h]
  exact except_ok_bool_false_iff _

/-- Witness for C1: the hypothesis holds at the scenario graph, and the
directional scenario facts follow. -/
theorem C1_hasModifier_directional_witness :
    gScenario.hasNode refB = true ∧ is_degraded gScenario refB = .ok true :=
  ⟨by decide,
   (C1_hasModifier_directional gScenario refB DEGRADATION (by decide)).2.2.2.2.2⟩

/-- C2: for every predicate-adapted node predicate, graph `g`, and node
`n` present in `g` with data `d`, the two-argument graph form agrees
with the one-argument bare-data form on `n`'s node data. -/
theorem C2_predicate_roundtrip (fn : NodeData → Bool) (g : BELGraph)
    (n : NodeRef) (d : NodeData) (h : g.nodes.lookup n = some d) :
    node_predicate fn [Arg.graph g, Arg.ref n] = node_predicate fn [Arg.data d] := by
  simp [node_predicate, BELGraph.node_get, h]

/-- Witness for C2 at `has_variant` on the scenario graph. -/
theorem C2_predicate_roundtrip_witness :
    gScenario.nodes.lookup refA = some dataA ∧
    node_predicate has_variant [Arg.graph gScenario, Arg.ref refA] =
      node_predicate has_variant [Arg.data dataA] :=
  ⟨by decide, C2_predicate_roundtrip has_variant gScenario refA dataA (by decide)⟩

/-- C4: a predicate-adapted call with zero arguments, or whose first
argument is neither a graph nor a node data mapping, fails with the
InvalidArgument error (`ValueError`), surfaced to the caller. -/
theorem C4_invalid_argument (fn : NodeData → Bool) (r : NodeRef) (rest : List Arg) :
    node_predicate fn [] = .error .invalidArgument ∧
    node_predicate fn (Arg.ref r :: rest) = .error .invalidArgument :=
  ⟨rfl, rfl⟩

/-- C5: `has_variant` is presence of the variants key, and each
kind-specific variant predicate is true iff the variants key is present
and some variant record's kind equals the respective token; when the
variants key is absent all four return false (no error is possible). -/
theorem C5_variant_predicates (d : NodeData) (f : String) :
    has_variant d = d.variants.isSome ∧
    (has_protein_modification d = true ↔
      ∃ vs, d.variants = some vs ∧ ∃ v ∈ vs, v.kind = PMOD) ∧
    (has_gene_modification d = true ↔
      ∃ vs, d.variants = some vs ∧ ∃ v ∈ vs, v.kind = GMOD) ∧
    (has_hgvs d = true ↔
      ∃ vs, d.variants = some vs ∧ ∃ v ∈ vs, v.kind = HGVS) ∧
    (has_fragment d = true ↔
      ∃ vs, d.variants = some vs ∧ ∃ v ∈ vs, v.kind = FRAGMENT) ∧
    has_protein_modification { function := f, variants := none } = false ∧
    has_gene_modification { function := f, variants := none } = false ∧
    has_hgvs { function := f, variants := none } = false ∧
    has_fragment { function := f, variants := none } = false :=
  ⟨rfl, node_has_variant_iff d PMOD, node_has_variant_iff d GMOD,
   node_has_variant_iff d HGVS, node_has_variant_iff d FRAGMENT,
   rfl, rfl, rfl, rfl⟩

/-- C10: a call whose only argument is a graph does not fail with the
adapter's InvalidArgument error: the adapter commits to the graph
branch before checking a second argument exists, so the failure is the
out-of-range index error. -/
theorem C10_graph_only_index_error (fn : NodeData → Bool) (g : BELGraph) :
    node_predicate fn [Arg.graph g] = .error .indexOutOfRange ∧
    node_predicate fn [Arg.graph g] ≠ .error .invalidArgument := by
  refine ⟨rfl, ?_⟩
  intro hcontra
  have h1 : (Except.error PyError.indexOutOfRange : Except PyError Bool) =
      .error .invalidArgument := hcontra
  exact absurd (Except.error.inj h1) (by decide)

theorem contains_iff_mem {α : Type} [DecidableEq α] (l : List α) (a : α) :
    l.contains a = true ↔ a ∈ l := by
  simp

theorem ok_not_eq_false_iff (c : Bool) (P : Prop) (h : c = true ↔ P) :
    ((Except.ok (!c) : Except PyError Bool) = .ok false ↔ P) := by
  cases c with
  | true => exact ⟨fun _ => h.mp rfl, fun _ => rfl⟩
  | false =>
    constructor
    · intro habs
      exact absurd (Except.ok.inj habs) (by decide)
    · intro hp
      exact absurd (h.mpr hp) (by decide)

theorem ok_not_eq_true_iff (c : Bool) (P : Prop) (h : c = true ↔ P) :
    ((Except.ok (!c) : Except PyError Bool) = .ok true ↔ ¬P) := by
  cases c with
  | true =>
    constructor
    · intro habs
      exact absurd (Except.ok.inj habs) (by decide)
    · intro hnp
      exact absurd (h.mp rfl) hnp
  | false => exact ⟨fun _ hp => absurd (h.mpr hp) (by decide), fun _ => rfl⟩

/-- C3: the exclusion filter is false exactly on nodes whose canonical
reference is in the canonicalized input set, true elsewhere; the empty
input yields the constant-true predicate; and a node supplied as data
or as its canonical reference yields the same filter. -/
theorem C3_exclusion_filter :
    (∀ (inputs : List NodeInput) (d : NodeData),
      node_exclusion_filter_builder inputs [Arg.data d] =
        .ok (!((inputs.map canonicalizeInput).contains (node_to_tuple d)))) ∧
    (∀ (inputs : List NodeInput) (d : NodeData),
      node_exclusion_filter_builder inputs [Arg.data d] = .ok false ↔
        node_to_tuple d ∈ inputs.map canonicalizeInput) ∧
    (∀ (inputs : List NodeInput) (d : NodeData),
      node_exclusion_filter_builder inputs [Arg.data d] = .ok true ↔
        node_to_tuple d ∉ inputs.map canonicalizeInput) ∧
    (∀ d : NodeData, node_exclusion_filter_builder [] [Arg.data d] = .ok true) ∧
    (∀ (x : NodeData) (rest : List NodeInput),
      node_exclusion_filter_builder (NodeInput.data x :: rest) =
        node_exclusion_filter_builder (NodeInput.ref (node_to_tuple x) :: rest)) := by
  refine ⟨fun inputs d => rfl, ?_, ?_, fun d => rfl, fun x rest => rfl⟩
  · intro inputs d
    exact ok_not_eq_false_iff _ _ (contains_iff_mem _ _)
  · intro inputs d
    exact ok_not_eq_true_iff _ _ (contains_iff_mem _ _)

theorem causal_in_iff (g : BELGraph) (n : NodeRef) (h : g.hasNode n = true) :
    has_causal_in_edges g n = .ok true ↔
      ∃ e ∈ g.edges, e.2.1 = n ∧ e.2.2.relation ∈ CAUSAL_RELATIONS := by
  have h0 : has_causal_in_edges g n =
      .ok ((g.edges.filter (fun e => e.2.1 == n)).any
        (fun e => CAUSAL_RELATIONS.contains e.2.2.relation)) := by
    unfold has_causal_in_edges
    rw [in_edges_iter_ok g n h]
  rw [h0]
  constructor
  · intro he
    have hb := Except.ok.inj he
    rw [List.any_eq_true] at hb
    rcases hb with ⟨e, hmem, hp⟩
    rw [List.mem_filter] at hmem
    exact ⟨e, hmem.1, beq_iff_eq.mp hmem.2, (contains_iff_mem _ _).mp hp⟩
  · rintro ⟨e, hmem, hn, hrel⟩
    have hb : (g.edges.filter (fun e => e.2.1 == n)).any
        (fun e => CAUSAL_RELATIONS.contains e.2.2.relation) = true := by
      rw [List.any_eq_true]
      exact ⟨e, List.mem_filter.mpr ⟨hmem, beq_iff_eq.mpr hn⟩,
        (contains_iff_mem _ _).mpr hrel⟩
    rw [hb]

theorem causal_out_iff (g : BELGraph) (n : NodeRef) (h : g.hasNode n = true) :
    has_causal_out_edges g n = .ok true ↔
      ∃ e ∈ g.edges, e.1 = n ∧ e.2.2.relation ∈ CAUSAL_RELATIONS := by
  have h0 : has_causal_out_edges g n =
      .ok ((g.edges.filter (fun e => e.1 == n)).any
        (fun e => CAUSAL_RELATIONS.contains e.2.2.relation)) := by
    unfold has_causal_out_edges
    rw [out_edges_iter_ok g n h]
  rw [h0]
  constructor
  · intro he
    have hb := Except.ok.inj he
    rw [List.any_eq_true] at hb
    rcases hb with ⟨e, hmem, hp⟩
    rw [List.mem_filter] at hmem
    exact ⟨e, hmem.1, beq_iff_eq.mp hmem.2, (contains_iff_mem _ _).mp hp⟩
  · rintro ⟨e, hmem, hn, hrel⟩
    have hb : (g.edges.filter (fun e => e.1 == n)).any
        (fun e => CAUSAL_RELATIONS.contains e.2.2.relation) = true := by
      rw [List.any_eq_true]
      exact ⟨e, List.mem_filter.mpr ⟨hmem, beq_iff_eq.mpr hn⟩,
        (contains_iff_mem _ _).mpr hrel⟩
    rw [hb]

/-- C6: `has_causal_in_edges` is true iff some in-edge's relation is in
`CAUSAL_RELATIONS`, `has_causal_out_edges` symmetrically over
out-edges; on the causal edge A→B: out(A)=true, in(A)=false,
in(B)=true, out(B)=false. -/
theorem C6_causal_edges (g : BELGraph) (n : NodeRef) (h : g.hasNode n = true) :
    (has_causal_in_edges g n = .ok true ↔
      ∃ e ∈ g.edges, e.2.1 = n ∧ e.2.2.relation ∈ CAUSAL_RELATIONS) ∧
    (has_causal_out_edges g n = .ok true ↔
      ∃ e ∈ g.edges, e.1 = n ∧ e.2.2.relation ∈ CAUSAL_RELATIONS) ∧
    has_causal_out_edges gScenario refA = .ok true ∧
    has_causal_in_edges gScenario refA = .ok false ∧
    has_causal_in_edges gScenario refB = .ok true ∧
    has_causal_out_edges gScenario refB = .ok false :=
  ⟨causal_in_iff g n h, causal_out_iff g n h, rfl, rfl, rfl, rfl⟩

/-- Witness for C6 at the scenario graph. -/
theorem C6_causal_edges_witness :
    gScenario.hasNode refA = true ∧ has_causal_out_edges gScenario refA = .ok true :=
  ⟨by decide, (C6_causal_edges gScenario refA (by decide)).2.2.1⟩

/-- Modelled from the spec: a cellular location token. -/
def INTRACELLULAR : String := "intracellular"

/-- Modelled from the spec: a cellular location token. -/
def EXTRACELLULAR : String := "extracellular space"

/-- Modelled from the spec: a translocation qualifier sub-record, a
Translocation-kind modifier with a from/to location effect. -/
def translocation_qr (fromLoc toLoc : String) : QualifierRecord :=
  { modifier := some TRANSLOCATION, effect := some (fromLoc, toLoc) }

/-- Modelled from the spec: the secretion qualifier sub-record, which is
represented as a Translocation-kind modifier (intracellular to
extracellular space). -/
def secretion_qr : QualifierRecord :=
  translocation_qr INTRACELLULAR EXTRACELLULAR

/-- Edge A→B with object-modifier Translocation(from X, to Y). -/
def tlocEdge : EdgeData :=
  { relation := INCREASES, object := some (translocation_qr "GO:0005634" "GO:0005737") }

/-- Edge A→B with object-modifier Secretion. -/
def secEdge : EdgeData :=
  { relation := INCREASES, object := some secretion_qr }

/-- Graph with the translocation edge. -/
def gTloc : BELGraph :=
  { nodes := [(refA, dataA), (refB, dataB)], edges := [(refA, refB, tlocEdge)] }

/-- Graph with the secretion edge. -/
def gSec : BELGraph :=
  { nodes := [(refA, dataA), (refB, dataB)], edges := [(refA, refB, secEdge)] }

/-- C7: an edge u→v whose object-side qualifier carries the
Translocation modifier makes `is_translocated` true at v; in particular
both a `translocation(from, to)` object-modifier and a `secretion`
object-modifier (represented as a Translocation-kind modifier) yield
`is_translocated` true at the target. -/
theorem C7_translocation_secretion :
    (∀ (g : BELGraph) (u v : NodeRef) (d : EdgeData) (q : QualifierRecord),
      g.hasNode v = true → (u, v, d) ∈ g.edges → d.object = some q →
      q.modifier = some TRANSLOCATION → is_translocated g v = .ok true) ∧
    is_translocated gTloc refB = .ok true ∧
    is_translocated gSec refB = .ok true := by
  refine ⟨?_, rfl, rfl⟩
  intro g u v d q hv hmem hobj hmod
  unfold is_translocated
  exact (node_has_modifier_iff g v TRANSLOCATION hv).mpr
    (Or.inl ⟨(u, v, d), hmem, rfl, q, hobj, hmod⟩)

/-- Witness for C7: the secretion edge, with every hypothesis checked at
the concrete input. -/
theorem C7_translocation_secretion_witness :
    gSec.hasNode refB = true ∧ is_translocated gSec refB = .ok true :=
  ⟨by decide,
   C7_translocation_secretion.1 gSec refA refB secEdge secretion_qr
     (by decide) (by decide) (by decide) (by decide)⟩

/-- C8: invoking the edge-qualifier scanner or the causal-edge
predicates on a reference not present in the graph fails with the
NodeNotFound error propagated from the graph collaborator. -/
theorem C8_node_not_found (g : BELGraph) (n : NodeRef) (m : String)
    (h : g.hasNode n = false) :
    _node_has_modifier g n m = .error .nodeNotFound ∧
    has_activity g n = .error .nodeNotFound ∧
    is_degraded g n = .error .nodeNotFound ∧
    is_translocated g n = .error .nodeNotFound ∧
    has_causal_in_edges g n = .error .nodeNotFound ∧
    has_causal_out_edges g n = .error .nodeNotFound := by
  have hin : g.in_edges_iter n = .error .nodeNotFound := by
    simp [BELGraph.in_edges_iter, h]
  have hout : g.out_edges_iter n = .error .nodeNotFound := by
    simp [BELGraph.out_edges_iter, h]
  have hmod : ∀ m', _node_has_modifier g n m' = .error .nodeNotFound := by
    intro m'
    unfold _node_has_modifier
    rw [hin]
  have hci : has_causal_in_edges g n = .error .nodeNotFound := by
    unfold has_causal_in_edges
    rw [hin]
  have hco : has_causal_out_edges g n = .error .nodeNotFound := by
    unfold has_causal_out_edges
    rw [hout]
  exact ⟨hmod m, hmod ACTIVITY, hmod DEGRADATION, hmod TRANSLOCATION, hci, hco⟩

/-- Witness for C8: a reference absent from the scenario graph. -/
theorem C8_node_not_found_witness :
    gScenario.hasNode refC = false ∧
    has_activity gScenario refC = .error .nodeNotFound :=
  ⟨by decide, (C8_node_not_found gScenario refC ACTIVITY (by decide)).2.1⟩

/-- A qualifier sub-record that lacks the `modifier` key. -/
def noModQualifier : QualifierRecord := { modifier := none }

/-- Edge A→B whose subject and object qualifier sub-records both lack
the `modifier` key. -/
def noModEdge : EdgeData :=
  { relation := ASSOCIATION,
    subject := some noModQualifier,
    object := some noModQualifier }

/-- Graph with only the modifier-less edge. -/
def gNoMod : BELGraph :=
  { nodes := [(refA, dataA), (refB, dataB)], edges := [(refA, refB, noModEdge)] }

/-- In-edge of B whose object qualifier lacks the `modifier` key. -/
def skipEdgeNoMod : EdgeData :=
  { relation := INCREASES, object := some noModQualifier }

/-- A second in-edge of B whose object qualifier carries Activity. -/
def skipEdgeAct : EdgeData :=
  { relation := INCREASES, object := some { modifier := some ACTIVITY } }

/-- Graph where B's first in-edge lacks a modifier and the second one
carries Activity. -/
def gSkip : BELGraph :=
  { nodes := [(refA, dataA), (refB, dataB), (refC, dataC)],
    edges := [(refA, refB, skipEdgeNoMod), (refC, refB, skipEdgeAct)] }

/-- C9: a qualifier sub-record lacking the `modifier` key is skipped:
on `gNoMod` every token yields false (no error) for both endpoints, on
`gSkip` the scan continues past the modifier-less sub-record and finds
the Activity match, and for any node present in any graph the scanner
returns a boolean rather than raising. -/
theorem C9_missing_modifier_skipped (m : String) :
    _node_has_modifier gNoMod refA m = .ok false ∧
    _node_has_modifier gNoMod refB m = .ok false ∧
    _node_has_modifier gSkip refB ACTIVITY = .ok true ∧
    (∀ (g : BELGraph) (n : NodeRef) (m' : String), g.hasNode n = true →
      ∃ b, _node_has_modifier g n m' = .ok b) :=
  ⟨rfl, rfl, rfl, fun g n m' h => ⟨_, node_has_modifier_eq g n m' h⟩⟩

/-- Witness for C9: the no-raise conjunct applied at the concrete
skip graph. -/
theorem C9_missing_modifier_skipped_witness :
    gSkip.hasNode refB = true ∧
    ∃ b, _node_has_modifier gSkip refB DEGRADATION = .ok b :=
  ⟨by decide,
   (C9_missing_modifier_skipped DEGRADATION).2.2.2 gSkip refB DEGRADATION (by decide)⟩
